import Mathlib

/-!
Shallow embedding of the request dispatch and lifecycle-management layer of
the dav-mcp STDIO server (src/server-stdio.js), together with theorems
settling the spec claims about it.

The embedding models the two request handlers registered in createMCPServer
(the tools/list handler and the tools/call handler), the needsTsdav
precondition check, the inline error translation in the catch block, the
startup function, and the gracefulShutdown handler.  Collaborator modules
that are not part of the dispatch layer source (error-handler.js,
tsdav-client.js) are modelled from the spec where a claim depends on them;
each such definition carries a doc comment saying so.
-/

/-- Error taxonomy codes.  Modelled from the spec: the numeric values of
MCP_ERROR_CODES live in src/error-handler.js, which is not under src/; the
dispatch layer only refers to them symbolically
(MCP_ERROR_CODES.METHOD_NOT_FOUND, .CALDAV_ERROR, .AUTH_ERROR at
src/server-stdio.js:123,172,175), and the spec taxonomy adds INTERNAL for
untranslated failures. -/
inductive ErrCode where
  | METHOD_NOT_FOUND
  | CALDAV_ERROR
  | AUTH_ERROR
  | INTERNAL
deriving DecidableEq, Repr

/-- A JavaScript Error value as the dispatch layer observes it: a message
that may be absent (the code reads error.message with optional chaining)
and an optional taxonomy code attached as a property. -/
structure JsError where
  message : Option String
  code : Option ErrCode
deriving DecidableEq, Repr

/-- A registered tool: name, description, inputSchema, and a handler.  The
handler is modelled as a pure function from the (serialised) arguments to
either a result or a thrown JsError, reflecting the awaited
tool.handler(args) call. -/
structure Tool where
  name : String
  description : String
  inputSchema : String
  handler : String → Except JsError String

/-- One entry of the protocol-visible tool catalogue as produced by the
tools/list handler (src/server-stdio.js:99-103): exactly the fields name,
description and inputSchema. -/
structure ListedTool where
  name : String
  description : String
  inputSchema : String
deriving DecidableEq, Repr

/-- The tools/list handler (src/server-stdio.js:94-106): maps the registry
to the catalogue, projecting each tool to name, description and
inputSchema. -/
def listToolsHandler (tools : List Tool) : List ListedTool :=
  tools.map (fun t => { name := t.name, description := t.description, inputSchema := t.inputSchema })

/-- Whether pat is a leading segment of s (character lists). -/
def charsLeadWith : List Char → List Char → Bool
  | _, [] => true
  | [], _ :: _ => false
  | c :: s, d :: p => c == d && charsLeadWith s p

/-- Whether p occurs as a contiguous segment of s (character lists). -/
def charsContain (s p : List Char) : Bool :=
  if charsLeadWith s p then true
  else
    match s with
    | [] => false
    | _ :: rest => charsContain rest p

/-- JavaScript String.prototype.includes: substring test. -/
def strIncludes (s pat : String) : Bool :=
  charsContain s.data pat.data

/-- The optional-chained error.message?.includes(pat) test: false when the
message is absent. -/
def msgIncludes : Option String → String → Bool
  | none, _ => false
  | some s, pat => strIncludes s pat

/-- The templated message of the CalDAV configuration error
(src/server-stdio.js:171). -/
def caldavNotConfiguredMsg : String :=
  "CalDAV connection not configured. Please set CALDAV_SERVER_URL, CALDAV_USERNAME, CALDAV_PASSWORD environment variables."

/-- The templated message of the authentication error
(src/server-stdio.js:174). -/
def authFailedMsg : String :=
  "Authentication failed. Please check your CalDAV credentials."

/-- The inline error translation of the catch block
(src/server-stdio.js:169-176): if the message mentions caldav or CalDAV,
replace with the configuration error coded CALDAV_ERROR; otherwise if it
mentions Unauthorized or 401, replace with the authentication error coded
AUTH_ERROR; otherwise leave the error unchanged. -/
def enhanceError (error : JsError) : JsError :=
  if msgIncludes error.message "caldav" || msgIncludes error.message "CalDAV" then
    { message := some caldavNotConfiguredMsg, code := some ErrCode.CALDAV_ERROR }
  else if msgIncludes error.message "Unauthorized" || msgIncludes error.message "401" then
    { message := some authFailedMsg, code := some ErrCode.AUTH_ERROR }
  else
    error

/-- The structured error response returned for a failed tool call. -/
structure ErrorResponse where
  code : ErrCode
  message : String
  detail : Option String
deriving DecidableEq, Repr

/-- Modelled from the spec: createToolErrorResponse lives in
src/error-handler.js, which is not under src/.  Per spec section 4.3 an
error without a taxonomy code is wrapped with code INTERNAL (the
Translator "never throws; worst case it returns the original error wrapped
with code INTERNAL"), and per section 3 / section 7 diagnostic detail is
included only when the development flag is set. -/
def createToolErrorResponse (e : JsError) (isDev : Bool) : ErrorResponse :=
  { code := e.code.getD ErrCode.INTERNAL,
    message := e.message.getD "",
    detail := if isDev then e.message else none }

/-- The response value the tools/call handler resolves to: either the
handler result returned unmodified (src/server-stdio.js:162) or the
structured error response built in the catch block
(src/server-stdio.js:185). -/
inductive ToolResponse where
  | success (result : String)
  | errorResult (e : ErrorResponse)
deriving DecidableEq, Repr

/-- The outcome of one tools/call request at the handler boundary: either
the handler threw (only the unknown-tool path at src/server-stdio.js:124
does this; the SDK transport turns such a throw into a JSON-RPC error
object carrying the error code and message), or it resolved to a
response. -/
inductive CallOutcome where
  | thrown (e : JsError)
  | response (r : ToolResponse)
deriving DecidableEq, Repr

/-- One structured record of the tool-call lifecycle log: the
logToolCallStart, logToolCallSuccess and logToolCallError calls at
src/server-stdio.js:129,156,179, keyed by tool name and arguments. -/
inductive LifecycleEvent where
  | start (tool : String) (args : String)
  | success (tool : String) (args : String) (result : String)
  | failure (tool : String) (args : String) (error : JsError)
deriving DecidableEq, Repr

/-- Whether an event is the start event. -/
def eventIsStart : LifecycleEvent → Bool
  | .start _ _ => true
  | _ => false

/-- Whether an event is terminal (success or failure). -/
def eventIsTerminal : LifecycleEvent → Bool
  | .start _ _ => false
  | .success _ _ _ => true
  | .failure _ _ _ => true

/-- The tool name an event was recorded for. -/
def eventTool : LifecycleEvent → String
  | .start t _ => t
  | .success t _ _ => t
  | .failure t _ _ => t

/-- The arguments an event was recorded with. -/
def eventArgs : LifecycleEvent → String
  | .start _ a => a
  | .success _ a _ => a
  | .failure _ a _ => a

/-- The default for absent request arguments: request.params.arguments is
defaulted to the empty object (src/server-stdio.js:115). -/
def emptyArgs : String := "{}"

/-- The precondition classifier (src/server-stdio.js:138): every tool
except list_calendars, list_addressbooks and list_todos needs an
initialized tsdav session. -/
def needsTsdav (toolName : String) : Bool :=
  toolName != "list_calendars" && toolName != "list_addressbooks" && toolName != "list_todos"

/-- Everything one dispatch of a tools/call request produces: the outcome
at the handler boundary, the recorded lifecycle events, whether the tsdav
initialization check ran, whether the non-fatal uninitialized warning was
emitted, and whether the tool handler was invoked. -/
structure DispatchResult where
  outcome : CallOutcome
  events : List LifecycleEvent
  checkedSession : Bool
  warned : Bool
  handlerInvoked : Bool
deriving DecidableEq, Repr

/-- The tools/call handler (src/server-stdio.js:109-187).  Arguments
default to the empty object.  An unknown tool name throws the
method-not-found error before any lifecycle event is recorded.  For a
registered tool, the start event is recorded, then (inside the try) the
needsTsdav check runs — an uninitialized session only emits a warning —
then the handler is awaited; a returned result is logged as success and
returned unmodified, a thrown error is translated by enhanceError, logged
as failure, and converted to a structured error response. -/
def callToolHandler (tools : List Tool) (tsdavInitialized : Bool) (devMode : Bool)
    (toolName : String) (argsProvided : Option String) : DispatchResult :=
  let args := argsProvided.getD emptyArgs
  match tools.find? (fun t => t.name == toolName) with
  | none =>
    { outcome := .thrown { message := some ("Unknown tool: " ++ toolName),
                           code := some ErrCode.METHOD_NOT_FOUND },
      events := [], checkedSession := false, warned := false, handlerInvoked := false }
  | some tool =>
    let checked := needsTsdav toolName
    let warnedNow := checked && !tsdavInitialized
    match tool.handler args with
    | .ok result =>
      { outcome := .response (.success result),
        events := [.start toolName args, .success toolName args result],
        checkedSession := checked, warned := warnedNow, handlerInvoked := true }
    | .error e =>
      let enhanced := enhanceError e
      { outcome := .response (.errorResult (createToolErrorResponse enhanced devMode)),
        events := [.start toolName args, .failure toolName args enhanced],
        checkedSession := checked, warned := warnedNow, handlerInvoked := true }

/-- Modelled from the spec: src/tsdav-client.js is not under src/.  Per
spec section 6 the Remote Client Facade exposes "per-domain accessor
methods that raise on use-before-initialize"; the dispatch layer's own
warning (src/server-stdio.js:145-146) names the raised condition "CalDAV
client not initialized". -/
def uninitSessionError : JsError :=
  { message := some "CalDAV client not initialized. Call initialize() first.",
    code := none }

/-- Modelled from the spec: a handler built on the Remote Client Facade
runs its body only when the session is initialized, and otherwise throws
uninitSessionError (spec section 6: accessor methods "raise on
use-before-initialize"). -/
def remoteFacadeCall (initialized : Bool) (run : String → Except JsError String)
    (args : String) : Except JsError String :=
  if initialized then run args
  else .error uninitSessionError

/-- The startup inputs the start function branches on
(src/server-stdio.js:248-276): whether Basic-auth credentials are all
present, whether OAuth2 credentials are all present, whether AUTH_METHOD
is Dummy, whether initializeTsdav succeeds when attempted, and whether the
remaining startup steps (logger init, server creation, transport connect,
health check) succeed. -/
structure StartConfig where
  hasBasicAuth : Bool
  hasOAuth2 : Bool
  authMethodDummy : Bool
  tsdavInitSucceeds : Bool
  restStepsSucceed : Bool
deriving DecidableEq, Repr

/-- What one run of the start function produces: whether the
no-credentials warning was printed, whether tsdav initialization was
attempted, whether the remote session ended up initialized, whether the
process reached the connected state (transport attached, catalogue
served), and the exit code if the process exited at startup. -/
structure StartResult where
  warnedNoCreds : Bool
  attemptedTsdavInit : Bool
  sessionInitialized : Bool
  connected : Bool
  exitCode : Option Nat
deriving DecidableEq, Repr

/-- The start function (src/server-stdio.js:248-355).  Credentials absent
in both modes and AUTH_METHOD not Dummy prints the warning.  The inner
try/catch (lines 265-276) attempts initializeTsdav only when some
credential set is present and swallows its failure, so the session is
initialized exactly when credentials are present and initialization
succeeded.  The outer try/catch exits with code 1 only when one of the
remaining startup steps throws; otherwise the process reaches the
connected state. -/
def startServer (c : StartConfig) : StartResult :=
  let hasCreds := c.hasBasicAuth || c.hasOAuth2
  let warned := !hasCreds && !c.authMethodDummy
  let sessionInit := hasCreds && c.tsdavInitSucceeds
  if c.restStepsSucceed then
    { warnedNoCreds := warned, attemptedTsdavInit := hasCreds,
      sessionInitialized := sessionInit, connected := true, exitCode := none }
  else
    { warnedNoCreds := warned, attemptedTsdavInit := hasCreds,
      sessionInitialized := sessionInit, connected := false, exitCode := some 1 }

/-- The observable actions of the shutdown path. -/
inductive ShutdownAction where
  | closeTransport
  | clearCleanupInterval
  | exitProcess (code : Nat)
deriving DecidableEq, Repr

/-- The gracefulShutdown function (src/server-stdio.js:196-217): inside a
try, close the transport if one exists, clear the cleanup interval if one
exists, then exit 0; if closing the transport throws, the catch exits 1
(without reaching the interval-clearing step). -/
def gracefulShutdown (hasTransport hasInterval closeSucceeds : Bool) : List ShutdownAction :=
  if hasTransport then
    if closeSucceeds then
      ShutdownAction.closeTransport ::
        ((if hasInterval then [ShutdownAction.clearCleanupInterval] else []) ++
          [ShutdownAction.exitProcess 0])
    else
      [ShutdownAction.closeTransport, ShutdownAction.exitProcess 1]
  else
    (if hasInterval then [ShutdownAction.clearCleanupInterval] else []) ++
      [ShutdownAction.exitProcess 0]

set_option linter.unusedVariables false in
/-- The registered shutdown trigger handlers (src/server-stdio.js:308-322):
each SIGTERM, SIGINT, uncaughtException or unhandledRejection trigger
invokes gracefulShutdown unconditionally.  No in-progress flag exists in
the source, so the actions a trigger performs do not depend on whether a
shutdown is already in progress. -/
def shutdownTrigger (alreadyShuttingDown : Bool)
    (hasTransport hasInterval closeSucceeds : Bool) : List ShutdownAction :=
  gracefulShutdown hasTransport hasInterval closeSucceeds

/-- A concrete code-free error with an unremarkable message, used to
exercise the dispatcher at concrete inputs. -/
def boomError : JsError := { message := some "boom", code := none }

/-- A concrete registered tool whose handler always succeeds. -/
def okTool : Tool :=
  { name := "t_ok", description := "always succeeds", inputSchema := "s",
    handler := fun _ => .ok "ok-result" }

/-- A concrete registered tool whose handler always throws boomError. -/
def failTool : Tool :=
  { name := "t_fail", description := "always throws", inputSchema := "s",
    handler := fun _ => .error boomError }

/-- A concrete tool whose handler goes through the remote facade with an
uninitialized session. -/
def remoteTool : Tool :=
  { name := "list_events", description := "remote", inputSchema := "s",
    handler := remoteFacadeCall false (fun _ => .ok "events") }

/-- Claim C9: every tools/list call returns the statically registered
catalogue in full and in stable order — the returned sequence has the same
length and (ordered) names as the registry, each entry is exactly the
projection of the corresponding tool to name, description and inputSchema
(the handler does not leak: ListedTool has no further fields), and, the
handler being a pure function of the immutable registry, two successive
calls yield identical catalogues. -/
theorem listTools_full_catalogue (tools : List Tool) :
    (listToolsHandler tools).length = tools.length ∧
    (listToolsHandler tools).map ListedTool.name = tools.map Tool.name ∧
    (∀ i : Nat, (listToolsHandler tools)[i]? =
      (tools[i]?).map (fun t => { name := t.name, description := t.description,
                                  inputSchema := t.inputSchema })) ∧
    listToolsHandler tools = listToolsHandler tools := by
  refine ⟨?_, ?_, ?_, rfl⟩
  · simp [listToolsHandler]
  · simp [listToolsHandler, List.map_map, Function.comp]
  · intro i
    simp [listToolsHandler, List.getElem?_map]

/-- Claim C10: the set of tool names exempt from the remote-session
precondition check is exactly list_calendars, list_addressbooks and
list_todos; other list-style names such as list_events and list_contacts
are not exempt; and the dispatcher runs the initialization check exactly
when the named tool is registered and not exempt. -/
theorem needsTsdav_exempt_set :
    (∀ name : String, needsTsdav name = false ↔
      (name = "list_calendars" ∨ name = "list_addressbooks" ∨ name = "list_todos")) ∧
    needsTsdav "list_events" = true ∧
    needsTsdav "list_contacts" = true ∧
    (∀ (tools : List Tool) (tsdav dev : Bool) (name : String) (argsP : Option String),
      (callToolHandler tools tsdav dev name argsP).checkedSession =
        (needsTsdav name && (tools.find? (fun t => t.name == name)).isSome)) := by
  refine ⟨?_, by decide, by decide, ?_⟩
  · intro name
    simp only [needsTsdav, Bool.and_eq_false_iff, bne_eq_false_iff_eq]
    tauto
  · intro tools tsdav dev name argsP
    cases hf : tools.find? (fun t => t.name == name) with
    | none => simp [callToolHandler, hf]
    | some tool =>
      cases hh : tool.handler (argsP.getD emptyArgs) <;>
        simp [callToolHandler, hf, hh]

/-- Claim C2: a tools/call request naming an unregistered tool resolves to
a thrown error carrying code METHOD_NOT_FOUND and the message Unknown
tool followed by the name, and no lifecycle event — in particular no
start event — is recorded for the request. -/
theorem callTool_unknown_tool (tools : List Tool) (tsdav dev : Bool)
    (name : String) (argsP : Option String)
    (hf : tools.find? (fun t => t.name == name) = none) :
    (callToolHandler tools tsdav dev name argsP).outcome =
      CallOutcome.thrown { message := some ("Unknown tool: " ++ name),
                           code := some ErrCode.METHOD_NOT_FOUND } ∧
    (callToolHandler tools tsdav dev name argsP).events = [] := by
  constructor <;> simp [callToolHandler, hf]

/-- Witness for callTool_unknown_tool: calling the name nonexistent_tool
against the empty registry yields exactly the message Unknown tool:
nonexistent_tool with code METHOD_NOT_FOUND and records no event. -/
theorem callTool_unknown_tool_witness :
    ([] : List Tool).find? (fun t => t.name == "nonexistent_tool") = none ∧
    (callToolHandler [] false false "nonexistent_tool" none).outcome =
      CallOutcome.thrown { message := some "Unknown tool: nonexistent_tool",
                           code := some ErrCode.METHOD_NOT_FOUND } ∧
    (callToolHandler [] false false "nonexistent_tool" none).events = [] := by
  have h := callTool_unknown_tool [] false false "nonexistent_tool" none rfl
  refine ⟨rfl, ?_, h.2⟩
  rw [h.1]
  rfl

/-- Claim C3: when a registered tool's handler throws, the dispatcher
catches the error and resolves to the structured error response built
from the translated error; the outcome is never a thrown exception. -/
theorem callTool_catches_handler_error (tools : List Tool) (tsdav dev : Bool)
    (name : String) (argsP : Option String) (tool : Tool) (e : JsError)
    (hf : tools.find? (fun t => t.name == name) = some tool)
    (hh : tool.handler (argsP.getD emptyArgs) = .error e) :
    (callToolHandler tools tsdav dev name argsP).outcome =
      CallOutcome.response (.errorResult (createToolErrorResponse (enhanceError e) dev)) ∧
    ∀ e' : JsError, (callToolHandler tools tsdav dev name argsP).outcome ≠ CallOutcome.thrown e' := by
  constructor
  · simp [callToolHandler, hf, hh]
  · intro e'
    simp [callToolHandler, hf, hh]

/-- Witness for callTool_catches_handler_error: dispatching the concrete
always-throwing tool resolves to the structured response built from the
translated boomError and is not a thrown exception. -/
theorem callTool_catches_handler_error_witness :
    [failTool].find? (fun t => t.name == "t_fail") = some failTool ∧
    failTool.handler ((none : Option String).getD emptyArgs) = .error boomError ∧
    (callToolHandler [failTool] false false "t_fail" none).outcome =
      CallOutcome.response (.errorResult (createToolErrorResponse (enhanceError boomError) false)) := by
  have h := callTool_catches_handler_error [failTool] false false "t_fail" none failTool
    boomError rfl rfl
  exact ⟨rfl, rfl, h.1⟩

/-- Claim C1: for a tools/call request naming a registered tool the
recorded lifecycle trace is exactly one start event followed by exactly
one terminal event — a success event when the handler returns, a failure
event (carrying the translated error) when it throws — and every recorded
event carries the request's tool name and arguments. -/
theorem callTool_lifecycle_trace (tools : List Tool) (tsdav dev : Bool)
    (name : String) (argsP : Option String) (tool : Tool)
    (r : DispatchResult) (args : String)
    (hr : r = callToolHandler tools tsdav dev name argsP)
    (hargs : args = argsP.getD emptyArgs)
    (hf : tools.find? (fun t => t.name == name) = some tool) :
    r.events.countP eventIsStart = 1 ∧
    r.events.countP eventIsTerminal = 1 ∧
    (∃ ev, r.events = [LifecycleEvent.start name args, ev] ∧ eventIsTerminal ev = true ∧
      ((∃ res, tool.handler args = .ok res ∧ ev = LifecycleEvent.success name args res) ∨
       (∃ e, tool.handler args = .error e ∧
         ev = LifecycleEvent.failure name args (enhanceError e)))) ∧
    (∀ ev ∈ r.events, eventTool ev = name ∧ eventArgs ev = args) := by
  subst hr hargs
  cases hh : tool.handler (argsP.getD emptyArgs) with
  | ok res =>
    refine ⟨?_, ?_, ⟨LifecycleEvent.success name (argsP.getD emptyArgs) res, ?_, rfl,
      Or.inl ⟨res, rfl, rfl⟩⟩, ?_⟩ <;>
      simp [callToolHandler, hf, hh, List.countP_cons, eventIsStart, eventIsTerminal,
        eventTool, eventArgs]
  | error e =>
    refine ⟨?_, ?_, ⟨LifecycleEvent.failure name (argsP.getD emptyArgs) (enhanceError e),
      ?_, rfl, Or.inr ⟨e, rfl, rfl⟩⟩, ?_⟩ <;>
      simp [callToolHandler, hf, hh, List.countP_cons, eventIsStart, eventIsTerminal,
        eventTool, eventArgs]

/-- Witness for callTool_lifecycle_trace: dispatching the concrete
always-succeeding tool records exactly the start event then the success
event, both keyed by that tool name and the defaulted arguments. -/
theorem callTool_lifecycle_trace_witness :
    [okTool].find? (fun t => t.name == "t_ok") = some okTool ∧
    (callToolHandler [okTool] true false "t_ok" none).events.countP eventIsStart = 1 ∧
    (callToolHandler [okTool] true false "t_ok" none).events.countP eventIsTerminal = 1 ∧
    (∃ ev, (callToolHandler [okTool] true false "t_ok" none).events =
      [LifecycleEvent.start "t_ok" "{}", ev] ∧ eventIsTerminal ev = true) := by
  have h := callTool_lifecycle_trace [okTool] true false "t_ok" none okTool
    (callToolHandler [okTool] true false "t_ok" none) ((none : Option String).getD emptyArgs)
    rfl rfl rfl
  obtain ⟨h1, h2, ⟨ev, hev, hterm, _⟩, _⟩ := h
  exact ⟨rfl, h1, h2, ⟨ev, hev, hterm⟩⟩

/-- Claim C6: for a registered tool that needs the remote session, an
uninitialized session makes the dispatcher emit the non-fatal warning and
still invoke the handler; the outcome is exactly what the handler result
determines, and it coincides with the outcome the same request has when
the session is initialized — the precondition by itself never prevents
execution or produces the response. -/
theorem callTool_uninit_warns_still_executes (tools : List Tool) (dev : Bool)
    (name : String) (argsP : Option String) (tool : Tool) (args : String)
    (hargs : args = argsP.getD emptyArgs)
    (hf : tools.find? (fun t => t.name == name) = some tool)
    (hneeds : needsTsdav name = true) :
    (callToolHandler tools false dev name argsP).warned = true ∧
    (callToolHandler tools false dev name argsP).handlerInvoked = true ∧
    ((∃ res, tool.handler args = .ok res ∧
        (callToolHandler tools false dev name argsP).outcome =
          CallOutcome.response (.success res)) ∨
     (∃ e, tool.handler args = .error e ∧
        (callToolHandler tools false dev name argsP).outcome =
          CallOutcome.response (.errorResult (createToolErrorResponse (enhanceError e) dev)))) ∧
    (callToolHandler tools true dev name argsP).outcome =
      (callToolHandler tools false dev name argsP).outcome := by
  subst hargs
  cases hh : tool.handler (argsP.getD emptyArgs) with
  | ok res =>
    refine ⟨?_, ?_, Or.inl ⟨res, rfl, ?_⟩, ?_⟩ <;>
      simp [callToolHandler, hf, hh, hneeds]
  | error e =>
    refine ⟨?_, ?_, Or.inr ⟨e, rfl, ?_⟩, ?_⟩ <;>
      simp [callToolHandler, hf, hh, hneeds]

/-- Witness for callTool_uninit_warns_still_executes: the concrete
always-succeeding tool (whose name is not exempt) dispatched with an
uninitialized session gets the warning and its handler result. -/
theorem callTool_uninit_warns_still_executes_witness :
    [okTool].find? (fun t => t.name == "t_ok") = some okTool ∧
    needsTsdav "t_ok" = true ∧
    (callToolHandler [okTool] false false "t_ok" none).warned = true ∧
    (callToolHandler [okTool] false false "t_ok" none).handlerInvoked = true ∧
    (callToolHandler [okTool] false false "t_ok" none).outcome =
      CallOutcome.response (.success "ok-result") := by
  have h := callTool_uninit_warns_still_executes [okTool] false "t_ok" none okTool
    ((none : Option String).getD emptyArgs) rfl rfl (by decide)
  exact ⟨rfl, by decide, h.1, h.2.1, by decide⟩

/-- The translation of the uninitialized-session error: its message
mentions CalDAV, so the first rule fires. -/
theorem enhance_uninitSessionError :
    enhanceError uninitSessionError =
      { message := some caldavNotConfiguredMsg, code := some ErrCode.CALDAV_ERROR } := by
  decide

/-- Claim C5: a registered tool whose handler goes through the Remote
Client Facade with an uninitialized session resolves to a structured
error response whose code is CALDAV_ERROR (the RemoteNotConfigured class
of the spec taxonomy); the outcome is never a thrown exception. -/
theorem callTool_uninit_remote_structured_error (tools : List Tool) (dev : Bool)
    (name : String) (argsP : Option String) (tool : Tool)
    (run : String → Except JsError String)
    (hf : tools.find? (fun t => t.name == name) = some tool)
    (hh : tool.handler = remoteFacadeCall false run) :
    ∃ resp : ErrorResponse,
      (callToolHandler tools false dev name argsP).outcome =
        CallOutcome.response (.errorResult resp) ∧
      resp.code = ErrCode.CALDAV_ERROR ∧
      ∀ e' : JsError, (callToolHandler tools false dev name argsP).outcome ≠
        CallOutcome.thrown e' := by
  have hrun : tool.handler (argsP.getD emptyArgs) = .error uninitSessionError := by
    rw [hh]; rfl
  refine ⟨createToolErrorResponse (enhanceError uninitSessionError) dev, ?_, ?_, ?_⟩
  · simp [callToolHandler, hf, hrun]
  · rw [enhance_uninitSessionError]
    rfl
  · intro e'
    simp [callToolHandler, hf, hrun]

/-- Witness for callTool_uninit_remote_structured_error: the concrete
facade-backed tool dispatched against an uninitialized session yields an
errorResult response coded CALDAV_ERROR. -/
theorem callTool_uninit_remote_structured_error_witness :
    [remoteTool].find? (fun t => t.name == "list_events") = some remoteTool ∧
    ∃ resp : ErrorResponse,
      (callToolHandler [remoteTool] false false "list_events" none).outcome =
        CallOutcome.response (.errorResult resp) ∧
      resp.code = ErrCode.CALDAV_ERROR := by
  have h := callTool_uninit_remote_structured_error [remoteTool] false "list_events" none
    remoteTool (fun _ => .ok "events") rfl rfl
  obtain ⟨resp, h1, h2, _⟩ := h
  exact ⟨rfl, resp, h1, h2⟩

/-- Claim C4: the inline error translation selects its rule from the raw
message alone, in fixed priority order — a message mentioning caldav or
CalDAV becomes the templated configuration error coded CALDAV_ERROR; else
a message mentioning Unauthorized or 401 becomes the templated credential
error coded AUTH_ERROR; else the error passes through unchanged, and a
code-free passthrough error is tagged INTERNAL by the response builder.
The translation is a total Lean function, so it never throws; errors with
equal messages are translated by the same rule. -/
theorem enhanceError_rules (e : JsError) (dev : Bool) :
    ((msgIncludes e.message "caldav" || msgIncludes e.message "CalDAV") = true →
      enhanceError e =
        { message := some caldavNotConfiguredMsg, code := some ErrCode.CALDAV_ERROR }) ∧
    ((msgIncludes e.message "caldav" || msgIncludes e.message "CalDAV") = false →
      (msgIncludes e.message "Unauthorized" || msgIncludes e.message "401") = true →
      enhanceError e = { message := some authFailedMsg, code := some ErrCode.AUTH_ERROR }) ∧
    ((msgIncludes e.message "caldav" || msgIncludes e.message "CalDAV") = false →
      (msgIncludes e.message "Unauthorized" || msgIncludes e.message "401") = false →
      enhanceError e = e) ∧
    (∀ e2 : JsError, e.message = e2.message →
      enhanceError e = enhanceError e2 ∨ (enhanceError e = e ∧ enhanceError e2 = e2)) ∧
    (e.code = none →
      (msgIncludes e.message "caldav" || msgIncludes e.message "CalDAV") = false →
      (msgIncludes e.message "Unauthorized" || msgIncludes e.message "401") = false →
      (createToolErrorResponse (enhanceError e) dev).code = ErrCode.INTERNAL) := by
  refine ⟨?_, ?_, ?_, ?_, ?_⟩
  · intro h1
    simp [enhanceError, h1]
  · intro h1 h2
    simp [enhanceError, h1, h2]
  · intro h1 h2
    simp [enhanceError, h1, h2]
  · intro e2 hm
    by_cases h1 : (msgIncludes e.message "caldav" || msgIncludes e.message "CalDAV") = true
    · left
      simp [enhanceError, h1, hm ▸ h1, ← hm]
    · by_cases h2 : (msgIncludes e.message "Unauthorized" || msgIncludes e.message "401") = true
      · left
        simp only [Bool.not_eq_true] at h1
        simp [enhanceError, h1, h2, ← hm]
      · right
        simp only [Bool.not_eq_true] at h1 h2
        constructor <;> simp [enhanceError, h1, h2, ← hm]
  · intro hc h1 h2
    simp [enhanceError, h1, h2, createToolErrorResponse, hc]

/-- Witness for enhanceError_rules: the three rules evaluated at concrete
errors — a CalDAV-mentioning message is re-tagged CALDAV_ERROR, a
401-mentioning message is re-tagged AUTH_ERROR, and an unremarkable
code-free message passes through and is tagged INTERNAL. -/
theorem enhanceError_rules_witness :
    enhanceError { message := some "no CalDAV account", code := none } =
      { message := some caldavNotConfiguredMsg, code := some ErrCode.CALDAV_ERROR } ∧
    enhanceError { message := some "Request failed with status 401", code := none } =
      { message := some authFailedMsg, code := some ErrCode.AUTH_ERROR } ∧
    enhanceError boomError = boomError ∧
    (createToolErrorResponse (enhanceError boomError) false).code = ErrCode.INTERNAL := by
  refine ⟨?_, ?_, ?_, ?_⟩
  · exact (enhanceError_rules { message := some "no CalDAV account", code := none } false).1
      (by decide)
  · exact (enhanceError_rules { message := some "Request failed with status 401", code := none }
      false).2.1 (by decide) (by decide)
  · exact (enhanceError_rules boomError false).2.2.1 (by decide) (by decide)
  · exact (enhanceError_rules boomError false).2.2.2.2 rfl (by decide) (by decide)

/-- Claim C7: remote-session initialization failure (or absent
credentials) never aborts startup — the exit code depends only on the
remaining startup steps, the process reaches the connected state (with
the catalogue served) exactly when those steps succeed, and the session
ends up initialized exactly when credentials were present and
initialization succeeded; in particular a startup exit code of 1 can only
come from a fault outside remote-session initialization. -/
theorem startServer_soft_start (c : StartConfig) :
    (startServer c).exitCode = (if c.restStepsSucceed then none else some 1) ∧
    (startServer c).connected = c.restStepsSucceed ∧
    (startServer c).sessionInitialized = ((c.hasBasicAuth || c.hasOAuth2) && c.tsdavInitSucceeds) ∧
    (startServer c).attemptedTsdavInit = (c.hasBasicAuth || c.hasOAuth2) ∧
    (startServer c).warnedNoCreds = (!(c.hasBasicAuth || c.hasOAuth2) && !c.authMethodDummy) := by
  obtain ⟨b, o, d, t, r⟩ := c
  cases r <;> simp [startServer]

/-- Claim C8, counterexample: the shutdown transition is not idempotent.
The trigger handlers consult no in-progress flag, so a trigger arriving
while a shutdown is already in progress (first argument true) re-runs the
full shutdown path — re-closing the transport, re-clearing the interval
and exiting — rather than having no additional effect. -/
theorem shutdownTrigger_second_not_noop :
    shutdownTrigger true true true true =
      [ShutdownAction.closeTransport, ShutdownAction.clearCleanupInterval,
       ShutdownAction.exitProcess 0] ∧
    shutdownTrigger true true true true ≠ [] := by
  decide

/-- Claim C8 as amended: every shutdown trigger runs the same single
shutdown path regardless of whether a shutdown is already in progress;
that path closes the transport exactly when one exists, clears the
periodic cleanup interval exactly when one exists and the close did not
throw, and ends by exiting with code 0 on clean release or 1 if release
raised an error. -/
theorem gracefulShutdown_path (hT hI cS : Bool) :
    shutdownTrigger true hT hI cS = shutdownTrigger false hT hI cS ∧
    (ShutdownAction.closeTransport ∈ gracefulShutdown hT hI cS ↔ hT = true) ∧
    (ShutdownAction.clearCleanupInterval ∈ gracefulShutdown hT hI cS ↔
      (hI && (!hT || cS)) = true) ∧
    (gracefulShutdown hT hI cS).getLast? =
      some (ShutdownAction.exitProcess (if (!hT || cS) then 0 else 1)) := by
  cases hT <;> cases hI <;> cases cS <;> decide
